import Mathlib

/-!
Shallow embedding of the MQMate CMQC shim (Sources/CMQC/mq_stubs.h and
Sources/CMQC/shim.h).

C scalar types are modeled as unbounded integers: the stub bodies only store
small constants, never perform arithmetic, so no overflow is possible and
`Int` is a faithful model of `int32_t` here.  Fixed-width `MQCHAR`/`MQBYTE`
arrays are modeled as lists of integers (the declared widths are recorded in
comments and, where a claim depends on them, in explicit layout lists).  A
`void*` is modeled as an opaque integer address; the stubs never dereference
one.

Each stub function takes the values of all caller-supplied locations and
returns a record holding the final value of every location reachable through
its pointer parameters: locations the C body writes get the constants it
stores, and every other location is returned exactly as it came in, mirroring
the straight-line bodies that perform no other store.
-/

namespace MQStubs

abbrev MQLONG := Int
abbrev MQCHAR := Int
abbrev MQBYTE := Int
abbrev MQHCONN := MQLONG
abbrev MQHOBJ := MQLONG
abbrev MQPTR := Int

-- Connection handle constants
def MQHC_UNUSABLE_HCONN : MQLONG := -1
def MQHO_UNUSABLE_HOBJ : MQLONG := -1

-- Completion codes
def MQCC_OK : MQLONG := 0
def MQCC_WARNING : MQLONG := 1
def MQCC_FAILED : MQLONG := 2

-- Reason codes
def MQRC_NONE : MQLONG := 0
def MQRC_Q_MGR_NOT_AVAILABLE : MQLONG := 2059
def MQRC_OBJECT_IN_USE : MQLONG := 2042
def MQRC_OBJECT_CHANGED : MQLONG := 2041
def MQRC_UNEXPECTED_ERROR : MQLONG := 2195
def MQRC_OBJECT_ALREADY_EXISTS : MQLONG := 2041

-- Get message options
def MQGMO_WAIT : MQLONG := 1
def MQGMO_NO_WAIT : MQLONG := 0

-- PCF constants
def MQCFH_VERSION_1 : MQLONG := 1
def MQCFH_STRUC_LENGTH : MQLONG := 36
def MQCFIN_STRUC_LENGTH : MQLONG := 16
def MQCFST_STRUC_LENGTH_FIXED : MQLONG := 20

/-- Connection options (struct tagMQCNO).  Array widths from the source:
StrucId[4], ConnTag[128], ConnectionId[24], Reserved[4]. -/
structure MQCNO where
  StrucId : List MQCHAR
  Version : MQLONG
  Options : MQLONG
  ClientConnOffset : MQLONG
  ClientConnPtr : MQPTR
  ConnTag : List MQBYTE
  SSLConfigPtr : MQPTR
  SSLConfigOffset : MQLONG
  ConnectionId : List MQBYTE
  SecurityParmsOffset : MQLONG
  SecurityParmsPtr : MQPTR
  CCDTUrlPtr : MQPTR
  CCDTUrlOffset : MQLONG
  CCDTUrlLength : MQLONG
  Reserved : List MQLONG
deriving DecidableEq, Repr

/-- Object descriptor (struct tagMQOD).  Array widths from the source:
StrucId[4], ObjectName[48], ObjectQMgrName[48], DynamicQName[48],
AlternateUserId[12], AlternateSecurityId[40], ResolvedQName[48],
ResolvedQMgrName[48], ObjectString[256], SelectionString[256],
ResObjectString[256]. -/
structure MQOD where
  StrucId : List MQCHAR
  Version : MQLONG
  ObjectType : MQLONG
  ObjectName : List MQCHAR
  ObjectQMgrName : List MQCHAR
  DynamicQName : List MQCHAR
  AlternateUserId : List MQCHAR
  RecsPresent : MQLONG
  KnownDestCount : MQLONG
  UnknownDestCount : MQLONG
  InvalidDestCount : MQLONG
  ObjectRecOffset : MQLONG
  ResponseRecOffset : MQLONG
  ObjectRecPtr : MQPTR
  ResponseRecPtr : MQPTR
  AlternateSecurityId : List MQBYTE
  ResolvedQName : List MQCHAR
  ResolvedQMgrName : List MQCHAR
  ObjectString : List MQCHAR
  SelectionString : List MQCHAR
  ResObjectString : List MQCHAR
  ResolvedType : MQLONG
deriving DecidableEq, Repr

/-- Message descriptor (struct tagMQMD).  Array widths from the source:
StrucId[4], Format[8], MsgId[24], CorrelId[24], ReplyToQ[48],
ReplyToQMgr[48], UserIdentifier[12], AccountingToken[32],
ApplIdentityData[32], PutApplName[28], PutDate[8], PutTime[8],
ApplOriginData[4], GroupId[24]. -/
structure MQMD where
  StrucId : List MQCHAR
  Version : MQLONG
  Report : MQLONG
  MsgType : MQLONG
  Expiry : MQLONG
  Feedback : MQLONG
  Encoding : MQLONG
  CodedCharSetId : MQLONG
  Format : List MQCHAR
  Priority : MQLONG
  Persistence : MQLONG
  MsgId : List MQBYTE
  CorrelId : List MQBYTE
  BackoutCount : MQLONG
  ReplyToQ : List MQCHAR
  ReplyToQMgr : List MQCHAR
  UserIdentifier : List MQCHAR
  AccountingToken : List MQBYTE
  ApplIdentityData : List MQCHAR
  PutApplType : MQLONG
  PutApplName : List MQCHAR
  PutDate : List MQCHAR
  PutTime : List MQCHAR
  ApplOriginData : List MQCHAR
  GroupId : List MQBYTE
  MsgSeqNumber : MQLONG
  Offset : MQLONG
  MsgFlags : MQLONG
  OriginalLength : MQLONG
deriving DecidableEq, Repr

/-- Get message options (struct tagMQGMO).  Array widths from the source:
StrucId[4], ResolvedQName[48], MsgToken[16]; GroupStatus, SegmentStatus,
Segmentation, Reserved1 are single MQCHARs. -/
structure MQGMO where
  StrucId : List MQCHAR
  Version : MQLONG
  Options : MQLONG
  WaitInterval : MQLONG
  Signal1 : MQLONG
  Signal2 : MQLONG
  ResolvedQName : List MQCHAR
  MatchOptions : MQLONG
  GroupStatus : MQCHAR
  SegmentStatus : MQCHAR
  Segmentation : MQCHAR
  Reserved1 : MQCHAR
  MsgToken : List MQBYTE
  ReturnedLength : MQLONG
  Reserved2 : MQLONG
  MsgHandle : MQLONG
deriving DecidableEq, Repr

/-- Put message options (struct tagMQPMO).  Array widths from the source:
StrucId[4], ResolvedQName[48], ResolvedQMgrName[48]. -/
structure MQPMO where
  StrucId : List MQCHAR
  Version : MQLONG
  Options : MQLONG
  Timeout : MQLONG
  Context : MQHOBJ
  KnownDestCount : MQLONG
  UnknownDestCount : MQLONG
  InvalidDestCount : MQLONG
  ResolvedQName : List MQCHAR
  ResolvedQMgrName : List MQCHAR
  RecsPresent : MQLONG
  PutMsgRecFields : MQLONG
  PutMsgRecOffset : MQLONG
  ResponseRecOffset : MQLONG
  PutMsgRecPtr : MQPTR
  ResponseRecPtr : MQPTR
  OriginalMsgHandle : MQLONG
  NewMsgHandle : MQLONG
  Action : MQLONG
  PubLevel : MQLONG
deriving DecidableEq, Repr

/-- PCF header (struct tagMQCFH): nine MQLONG fields. -/
structure MQCFH where
  «Type» : MQLONG
  StrucLength : MQLONG
  Version : MQLONG
  Command : MQLONG
  MsgSeqNumber : MQLONG
  Control : MQLONG
  CompCode : MQLONG
  Reason : MQLONG
  ParameterCount : MQLONG
deriving DecidableEq, Repr

/-- PCF integer parameter (struct tagMQCFIN): four MQLONG fields. -/
structure MQCFIN where
  «Type» : MQLONG
  StrucLength : MQLONG
  Parameter : MQLONG
  Value : MQLONG
deriving DecidableEq, Repr

/-- PCF string parameter (struct tagMQCFST): five MQLONG fields followed by
the trailing flexible character array String[1]. -/
structure MQCFST where
  «Type» : MQLONG
  StrucLength : MQLONG
  Parameter : MQLONG
  CodedCharSetId : MQLONG
  StringLength : MQLONG
  String : List MQCHAR
deriving DecidableEq, Repr

/-- sizeof(MQLONG): MQLONG is a typedef of int32_t, four bytes. -/
def mqlongByteSize : Nat := 4

/-- Byte sizes of the fields of MQCFH in declaration order: Type,
StrucLength, Version, Command, MsgSeqNumber, Control, CompCode, Reason,
ParameterCount — each an MQLONG. -/
def mqcfhFieldSizes : List Nat :=
  [mqlongByteSize, mqlongByteSize, mqlongByteSize, mqlongByteSize,
   mqlongByteSize, mqlongByteSize, mqlongByteSize, mqlongByteSize,
   mqlongByteSize]

/-- Total byte size of an MQCFH record. -/
def mqcfhByteSize : Nat := mqcfhFieldSizes.sum

/-- Byte sizes of the fields of MQCFIN in declaration order: Type,
StrucLength, Parameter, Value — each an MQLONG. -/
def mqcfinFieldSizes : List Nat :=
  [mqlongByteSize, mqlongByteSize, mqlongByteSize, mqlongByteSize]

/-- Total byte size of an MQCFIN record. -/
def mqcfinByteSize : Nat := mqcfinFieldSizes.sum

/-- Byte sizes of the fixed-part fields of MQCFST in declaration order:
Type, StrucLength, Parameter, CodedCharSetId, StringLength — each an
MQLONG, preceding the trailing String array. -/
def mqcfstFixedFieldSizes : List Nat :=
  [mqlongByteSize, mqlongByteSize, mqlongByteSize, mqlongByteSize,
   mqlongByteSize]

/-- Total byte size of the fixed part of an MQCFST record. -/
def mqcfstFixedByteSize : Nat := mqcfstFixedFieldSizes.sum

/-- Final values of the locations reachable from MQCONNX's parameters:
the (read-only) queue manager name and connection options pointed to by
QMgrName and pConnectOpts, and the three output locations pointed to by
pHconn, pCompCode and pReason. -/
structure MQCONNXResult where
  QMgrName : List MQCHAR
  ConnectOpts : MQCNO
  Hconn : MQHCONN
  CompCode : MQLONG
  Reason : MQLONG
deriving DecidableEq, Repr

/-- Stub MQCONNX: stores MQHC_UNUSABLE_HCONN into *pHconn, MQCC_FAILED into
*pCompCode and MQRC_Q_MGR_NOT_AVAILABLE into *pReason; no other store. -/
def MQCONNX (QMgrName : List MQCHAR) (pConnectOpts : MQCNO) : MQCONNXResult :=
  { QMgrName := QMgrName
    ConnectOpts := pConnectOpts
    Hconn := MQHC_UNUSABLE_HCONN
    CompCode := MQCC_FAILED
    Reason := MQRC_Q_MGR_NOT_AVAILABLE }

/-- Final values of the locations pointed to by MQDISC's pHconn, pCompCode
and pReason. -/
structure MQDISCResult where
  Hconn : MQHCONN
  CompCode : MQLONG
  Reason : MQLONG
deriving DecidableEq, Repr

/-- Stub MQDISC: stores MQHC_UNUSABLE_HCONN into *pHconn, MQCC_OK into
*pCompCode and MQRC_NONE into *pReason, whatever *pHconn held before. -/
def MQDISC (pHconn : MQHCONN) : MQDISCResult :=
  { Hconn := MQHC_UNUSABLE_HCONN
    CompCode := MQCC_OK
    Reason := MQRC_NONE }

/-- Final values of the locations reachable from MQOPEN's pointer
parameters: the object descriptor pointed to by pObjDesc and the output
locations pointed to by pHobj, pCompCode and pReason. -/
structure MQOPENResult where
  ObjDesc : MQOD
  Hobj : MQHOBJ
  CompCode : MQLONG
  Reason : MQLONG
deriving DecidableEq, Repr

/-- Stub MQOPEN: stores MQHO_UNUSABLE_HOBJ into *pHobj, MQCC_FAILED into
*pCompCode and MQRC_Q_MGR_NOT_AVAILABLE into *pReason; it performs no store
through pObjDesc, so the object descriptor keeps its incoming value. -/
def MQOPEN (Hconn : MQHCONN) (pObjDesc : MQOD) (Options : MQLONG) :
    MQOPENResult :=
  { ObjDesc := pObjDesc
    Hobj := MQHO_UNUSABLE_HOBJ
    CompCode := MQCC_FAILED
    Reason := MQRC_Q_MGR_NOT_AVAILABLE }

/-- Final values of the locations pointed to by MQCLOSE's pHobj, pCompCode
and pReason. -/
structure MQCLOSEResult where
  Hobj : MQHOBJ
  CompCode : MQLONG
  Reason : MQLONG
deriving DecidableEq, Repr

/-- Stub MQCLOSE: stores MQHO_UNUSABLE_HOBJ into *pHobj, MQCC_OK into
*pCompCode and MQRC_NONE into *pReason, whatever *pHobj held before. -/
def MQCLOSE (Hconn : MQHCONN) (pHobj : MQHOBJ) (Options : MQLONG) :
    MQCLOSEResult :=
  { Hobj := MQHO_UNUSABLE_HOBJ
    CompCode := MQCC_OK
    Reason := MQRC_NONE }

/-- Final values of the locations reachable from MQGET's pointer
parameters: the message descriptor, the get options, the caller-supplied
data buffer, and the output locations pointed to by pDataLength, pCompCode
and pReason. -/
structure MQGETResult where
  MsgDesc : MQMD
  GetMsgOpts : MQGMO
  Buffer : List MQBYTE
  DataLength : MQLONG
  CompCode : MQLONG
  Reason : MQLONG
deriving DecidableEq, Repr

/-- Stub MQGET: stores 0 into *pDataLength, MQCC_FAILED into *pCompCode and
MQRC_Q_MGR_NOT_AVAILABLE into *pReason; it performs no store through
pMsgDesc, pGetMsgOpts or pBuffer, and reads none of them. -/
def MQGET (Hconn : MQHCONN) (Hobj : MQHOBJ) (pMsgDesc : MQMD)
    (pGetMsgOpts : MQGMO) (BufferLength : MQLONG) (pBuffer : List MQBYTE) :
    MQGETResult :=
  { MsgDesc := pMsgDesc
    GetMsgOpts := pGetMsgOpts
    Buffer := pBuffer
    DataLength := 0
    CompCode := MQCC_FAILED
    Reason := MQRC_Q_MGR_NOT_AVAILABLE }

/-- Final values of the locations reachable from MQPUT's pointer
parameters: the message descriptor, the put options, the caller-supplied
data buffer, and the output locations pointed to by pCompCode and
pReason. -/
structure MQPUTResult where
  MsgDesc : MQMD
  PutMsgOpts : MQPMO
  Buffer : List MQBYTE
  CompCode : MQLONG
  Reason : MQLONG
deriving DecidableEq, Repr

/-- Stub MQPUT: stores MQCC_FAILED into *pCompCode and
MQRC_Q_MGR_NOT_AVAILABLE into *pReason; it performs no store through
pMsgDesc, pPutMsgOpts or pBuffer, and reads none of them. -/
def MQPUT (Hconn : MQHCONN) (Hobj : MQHOBJ) (pMsgDesc : MQMD)
    (pPutMsgOpts : MQPMO) (BufferLength : MQLONG) (pBuffer : List MQBYTE) :
    MQPUTResult :=
  { MsgDesc := pMsgDesc
    PutMsgOpts := pPutMsgOpts
    Buffer := pBuffer
    CompCode := MQCC_FAILED
    Reason := MQRC_Q_MGR_NOT_AVAILABLE }

/-- Final values of the locations reachable from MQINQ's pointer
parameters: the selector array, the integer-attribute output array, the
character-attribute output buffer, and the output locations pointed to by
pCompCode and pReason. -/
structure MQINQResult where
  Selectors : List MQLONG
  IntAttrs : List MQLONG
  CharAttrs : List MQCHAR
  CompCode : MQLONG
  Reason : MQLONG
deriving DecidableEq, Repr

/-- Stub MQINQ: stores MQCC_FAILED into *pCompCode and
MQRC_Q_MGR_NOT_AVAILABLE into *pReason; it performs no store through
pSelectors, pIntAttrs or pCharAttrs. -/
def MQINQ (Hconn : MQHCONN) (Hobj : MQHOBJ) (SelectorCount : MQLONG)
    (pSelectors : List MQLONG) (IntAttrCount : MQLONG)
    (pIntAttrs : List MQLONG) (CharAttrLength : MQLONG)
    (pCharAttrs : List MQCHAR) : MQINQResult :=
  { Selectors := pSelectors
    IntAttrs := pIntAttrs
    CharAttrs := pCharAttrs
    CompCode := MQCC_FAILED
    Reason := MQRC_Q_MGR_NOT_AVAILABLE }

/-- The two declaration sets shim.h can bind: the real vendor headers
(/opt/mqm/inc/cmqc.h and cmqxc.h) or the stub header mq_stubs.h. -/
inductive MQDeclSet where
  | realClient
  | stubHeaders
deriving DecidableEq, Repr

/-- The declaration set shim.h includes, as a function of whether
__has_include finds /opt/mqm/inc/cmqc.h: the real headers when it does,
mq_stubs.h otherwise. -/
def selectedDeclSet (cmqcHeaderPresent : Bool) : MQDeclSet :=
  if cmqcHeaderPresent then MQDeclSet.realClient else MQDeclSet.stubHeaders

/-- The value shim.h defines MQ_CLIENT_AVAILABLE to, as a function of
whether __has_include finds /opt/mqm/inc/cmqc.h: 1 when it does, 0
otherwise. -/
def MQ_CLIENT_AVAILABLE (cmqcHeaderPresent : Bool) : Nat :=
  if cmqcHeaderPresent then 1 else 0

/-- An all-zero connection options record, at the declared array widths. -/
def mqcnoZero : MQCNO :=
  { StrucId := List.replicate 4 0
    Version := 0
    Options := 0
    ClientConnOffset := 0
    ClientConnPtr := 0
    ConnTag := List.replicate 128 0
    SSLConfigPtr := 0
    SSLConfigOffset := 0
    ConnectionId := List.replicate 24 0
    SecurityParmsOffset := 0
    SecurityParmsPtr := 0
    CCDTUrlPtr := 0
    CCDTUrlOffset := 0
    CCDTUrlLength := 0
    Reserved := List.replicate 4 0 }

/-- An all-zero object descriptor, at the declared array widths. -/
def mqodZero : MQOD :=
  { StrucId := List.replicate 4 0
    Version := 0
    ObjectType := 0
    ObjectName := List.replicate 48 0
    ObjectQMgrName := List.replicate 48 0
    DynamicQName := List.replicate 48 0
    AlternateUserId := List.replicate 12 0
    RecsPresent := 0
    KnownDestCount := 0
    UnknownDestCount := 0
    InvalidDestCount := 0
    ObjectRecOffset := 0
    ResponseRecOffset := 0
    ObjectRecPtr := 0
    ResponseRecPtr := 0
    AlternateSecurityId := List.replicate 40 0
    ResolvedQName := List.replicate 48 0
    ResolvedQMgrName := List.replicate 48 0
    ObjectString := List.replicate 256 0
    SelectionString := List.replicate 256 0
    ResObjectString := List.replicate 256 0
    ResolvedType := 0 }

/-- An object descriptor whose resolved-type output field already holds a
nonzero value when it is handed to the stub. -/
def mqodResolvedSet : MQOD := { mqodZero with ResolvedType := 7 }

/-- An all-zero message descriptor, at the declared array widths. -/
def mqmdZero : MQMD :=
  { StrucId := List.replicate 4 0
    Version := 0
    Report := 0
    MsgType := 0
    Expiry := 0
    Feedback := 0
    Encoding := 0
    CodedCharSetId := 0
    Format := List.replicate 8 0
    Priority := 0
    Persistence := 0
    MsgId := List.replicate 24 0
    CorrelId := List.replicate 24 0
    BackoutCount := 0
    ReplyToQ := List.replicate 48 0
    ReplyToQMgr := List.replicate 48 0
    UserIdentifier := List.replicate 12 0
    AccountingToken := List.replicate 32 0
    ApplIdentityData := List.replicate 32 0
    PutApplType := 0
    PutApplName := List.replicate 28 0
    PutDate := List.replicate 8 0
    PutTime := List.replicate 8 0
    ApplOriginData := List.replicate 4 0
    GroupId := List.replicate 24 0
    MsgSeqNumber := 0
    Offset := 0
    MsgFlags := 0
    OriginalLength := 0 }

/-- All-zero get message options, at the declared array widths. -/
def mqgmoZero : MQGMO :=
  { StrucId := List.replicate 4 0
    Version := 0
    Options := 0
    WaitInterval := 0
    Signal1 := 0
    Signal2 := 0
    ResolvedQName := List.replicate 48 0
    MatchOptions := 0
    GroupStatus := 0
    SegmentStatus := 0
    Segmentation := 0
    Reserved1 := 0
    MsgToken := List.replicate 16 0
    ReturnedLength := 0
    Reserved2 := 0
    MsgHandle := 0 }

/-- Get message options equal to mqgmoZero except that the MQGMO_WAIT
option bit is set and a nonzero wait interval is supplied. -/
def mqgmoWaiting : MQGMO :=
  { mqgmoZero with Options := mqgmoZero.Options + MQGMO_WAIT
                   WaitInterval := 5000 }

/-- All-zero put message options, at the declared array widths. -/
def mqpmoZero : MQPMO :=
  { StrucId := List.replicate 4 0
    Version := 0
    Options := 0
    Timeout := 0
    Context := 0
    KnownDestCount := 0
    UnknownDestCount := 0
    InvalidDestCount := 0
    ResolvedQName := List.replicate 48 0
    ResolvedQMgrName := List.replicate 48 0
    RecsPresent := 0
    PutMsgRecFields := 0
    PutMsgRecOffset := 0
    ResponseRecOffset := 0
    PutMsgRecPtr := 0
    ResponseRecPtr := 0
    OriginalMsgHandle := 0
    NewMsgHandle := 0
    Action := 0
    PubLevel := 0 }

/-- Claim C1: for every input (manager name, connection options, object
descriptor, open options), the stub MQCONNX and MQOPEN store the unusable
handle sentinel -1 into the output handle, completion code MQCC_FAILED (2)
into the output completion code, and reason MQRC_Q_MGR_NOT_AVAILABLE (2059)
into the output reason code. -/
theorem mqconnx_mqopen_fail_unavailable (QMgrName : List MQCHAR)
    (pConnectOpts : MQCNO) (Hconn : MQHCONN) (pObjDesc : MQOD)
    (OpenOptions : MQLONG) :
    ((MQCONNX QMgrName pConnectOpts).Hconn = -1 ∧
     (MQCONNX QMgrName pConnectOpts).CompCode = MQCC_FAILED ∧
     (MQCONNX QMgrName pConnectOpts).CompCode = 2 ∧
     (MQCONNX QMgrName pConnectOpts).Reason = MQRC_Q_MGR_NOT_AVAILABLE ∧
     (MQCONNX QMgrName pConnectOpts).Reason = 2059) ∧
    ((MQOPEN Hconn pObjDesc OpenOptions).Hobj = -1 ∧
     (MQOPEN Hconn pObjDesc OpenOptions).CompCode = MQCC_FAILED ∧
     (MQOPEN Hconn pObjDesc OpenOptions).CompCode = 2 ∧
     (MQOPEN Hconn pObjDesc OpenOptions).Reason = MQRC_Q_MGR_NOT_AVAILABLE ∧
     (MQOPEN Hconn pObjDesc OpenOptions).Reason = 2059) :=
  ⟨⟨rfl, rfl, rfl, rfl, rfl⟩, rfl, rfl, rfl, rfl, rfl⟩

/-- Claim C2: for every prior handle value, including one already equal to
the unusable sentinel, the stub MQDISC and MQCLOSE store MQCC_OK (0) and
MQRC_NONE (0) into their output codes and set the handle pointed to by
their handle argument to the unusable sentinel -1. -/
theorem mqdisc_mqclose_always_succeed (pHconn : MQHCONN) (Hconn : MQHCONN)
    (pHobj : MQHOBJ) (CloseOptions : MQLONG) :
    ((MQDISC pHconn).CompCode = MQCC_OK ∧ (MQDISC pHconn).CompCode = 0 ∧
     (MQDISC pHconn).Reason = MQRC_NONE ∧ (MQDISC pHconn).Reason = 0 ∧
     (MQDISC pHconn).Hconn = -1) ∧
    ((MQCLOSE Hconn pHobj CloseOptions).CompCode = MQCC_OK ∧
     (MQCLOSE Hconn pHobj CloseOptions).CompCode = 0 ∧
     (MQCLOSE Hconn pHobj CloseOptions).Reason = MQRC_NONE ∧
     (MQCLOSE Hconn pHobj CloseOptions).Reason = 0 ∧
     (MQCLOSE Hconn pHobj CloseOptions).Hobj = -1) ∧
    ((MQDISC MQHC_UNUSABLE_HCONN).Hconn = MQHC_UNUSABLE_HCONN ∧
     (MQCLOSE Hconn MQHO_UNUSABLE_HOBJ CloseOptions).Hobj =
       MQHO_UNUSABLE_HOBJ) :=
  ⟨⟨rfl, rfl, rfl, rfl, rfl⟩, ⟨rfl, rfl, rfl, rfl, rfl⟩, rfl, rfl⟩

/-- Claim C3: every stub MQGET or MQPUT call reports MQCC_FAILED (2) with
reason MQRC_Q_MGR_NOT_AVAILABLE (2059); MQGET's returned data length is 0;
the caller-supplied buffer is unchanged byte for byte; and no byte of the
buffer is read into any output (the written outputs are identical for any
two buffer contents). -/
theorem mqget_mqput_fail_and_preserve_buffer (Hconn : MQHCONN)
    (Hobj : MQHOBJ) (md : MQMD) (gmo : MQGMO) (pmo : MQPMO)
    (BufferLength : MQLONG) (buf : List MQBYTE) :
    ((MQGET Hconn Hobj md gmo BufferLength buf).CompCode = MQCC_FAILED ∧
     (MQGET Hconn Hobj md gmo BufferLength buf).CompCode = 2 ∧
     (MQGET Hconn Hobj md gmo BufferLength buf).Reason =
       MQRC_Q_MGR_NOT_AVAILABLE ∧
     (MQGET Hconn Hobj md gmo BufferLength buf).Reason = 2059 ∧
     (MQGET Hconn Hobj md gmo BufferLength buf).DataLength = 0 ∧
     (MQGET Hconn Hobj md gmo BufferLength buf).Buffer = buf) ∧
    ((MQPUT Hconn Hobj md pmo BufferLength buf).CompCode = MQCC_FAILED ∧
     (MQPUT Hconn Hobj md pmo BufferLength buf).CompCode = 2 ∧
     (MQPUT Hconn Hobj md pmo BufferLength buf).Reason =
       MQRC_Q_MGR_NOT_AVAILABLE ∧
     (MQPUT Hconn Hobj md pmo BufferLength buf).Reason = 2059 ∧
     (MQPUT Hconn Hobj md pmo BufferLength buf).Buffer = buf) ∧
    (∀ buf' : List MQBYTE,
     ((MQGET Hconn Hobj md gmo BufferLength buf').DataLength,
      (MQGET Hconn Hobj md gmo BufferLength buf').CompCode,
      (MQGET Hconn Hobj md gmo BufferLength buf').Reason) =
     ((MQGET Hconn Hobj md gmo BufferLength buf).DataLength,
      (MQGET Hconn Hobj md gmo BufferLength buf).CompCode,
      (MQGET Hconn Hobj md gmo BufferLength buf).Reason) ∧
     ((MQPUT Hconn Hobj md pmo BufferLength buf').CompCode,
      (MQPUT Hconn Hobj md pmo BufferLength buf').Reason) =
     ((MQPUT Hconn Hobj md pmo BufferLength buf).CompCode,
      (MQPUT Hconn Hobj md pmo BufferLength buf).Reason)) :=
  ⟨⟨rfl, rfl, rfl, rfl, rfl, rfl⟩, ⟨rfl, rfl, rfl, rfl, rfl⟩,
   fun _ => ⟨rfl, rfl⟩⟩

/-- Claim C4 is false as stated: the stub MQOPEN stores nothing through
pObjDesc, so a resolved output field that holds a nonzero value on entry
still holds it after the call.  Concretely, on a descriptor whose
ResolvedType is 7 on entry, ResolvedType is still 7 (not zero) after
MQOPEN returns. -/
theorem mqopen_resolved_fields_not_cleared :
    (MQOPEN 0 mqodResolvedSet 0).ObjDesc.ResolvedType ≠ 0 ∧
    (MQOPEN 0 mqodResolvedSet 0).ObjDesc.ResolvedType =
      mqodResolvedSet.ResolvedType := by
  exact ⟨by decide, rfl⟩

/-- Claim C4, amended: after every call to the stub MQOPEN, the object
descriptor it was given is entirely unchanged: the resolved output fields
(ResolvedQName, ResolvedQMgrName, ResObjectString, ResolvedType) keep
their pre-call values — in particular they are zero/empty after the call
whenever they were zero/empty on entry — and the caller-set input name
fields are unchanged. -/
theorem mqopen_preserves_objdesc (Hconn : MQHCONN) (od : MQOD)
    (Options : MQLONG) :
    (MQOPEN Hconn od Options).ObjDesc.ResolvedQName = od.ResolvedQName ∧
    (MQOPEN Hconn od Options).ObjDesc.ResolvedQMgrName =
      od.ResolvedQMgrName ∧
    (MQOPEN Hconn od Options).ObjDesc.ResObjectString =
      od.ResObjectString ∧
    (MQOPEN Hconn od Options).ObjDesc.ResolvedType = od.ResolvedType ∧
    (MQOPEN Hconn od Options).ObjDesc.ObjectName = od.ObjectName ∧
    (MQOPEN Hconn od Options).ObjDesc.ObjectQMgrName = od.ObjectQMgrName ∧
    (MQOPEN Hconn od Options).ObjDesc.DynamicQName = od.DynamicQName ∧
    (MQOPEN Hconn od Options).ObjDesc.AlternateUserId =
      od.AlternateUserId ∧
    (MQOPEN Hconn od Options).ObjDesc.ObjectType = od.ObjectType ∧
    (MQOPEN Hconn od Options).ObjDesc = od :=
  ⟨rfl, rfl, rfl, rfl, rfl, rfl, rfl, rfl, rfl, rfl⟩

/-- Claim C5: every stub MQINQ call reports MQCC_FAILED (2) with reason
MQRC_Q_MGR_NOT_AVAILABLE (2059) and leaves the integer-attribute output
array and the character-attribute output buffer (and the selector array)
entirely unmodified. -/
theorem mqinq_fails_and_preserves_outputs (Hconn : MQHCONN) (Hobj : MQHOBJ)
    (SelectorCount : MQLONG) (sels : List MQLONG) (IntAttrCount : MQLONG)
    (ia : List MQLONG) (CharAttrLength : MQLONG) (ca : List MQCHAR) :
    (MQINQ Hconn Hobj SelectorCount sels IntAttrCount ia CharAttrLength
      ca).CompCode = MQCC_FAILED ∧
    (MQINQ Hconn Hobj SelectorCount sels IntAttrCount ia CharAttrLength
      ca).CompCode = 2 ∧
    (MQINQ Hconn Hobj SelectorCount sels IntAttrCount ia CharAttrLength
      ca).Reason = MQRC_Q_MGR_NOT_AVAILABLE ∧
    (MQINQ Hconn Hobj SelectorCount sels IntAttrCount ia CharAttrLength
      ca).Reason = 2059 ∧
    (MQINQ Hconn Hobj SelectorCount sels IntAttrCount ia CharAttrLength
      ca).IntAttrs = ia ∧
    (MQINQ Hconn Hobj SelectorCount sels IntAttrCount ia CharAttrLength
      ca).CharAttrs = ca ∧
    (MQINQ Hconn Hobj SelectorCount sels IntAttrCount ia CharAttrLength
      ca).Selectors = sels :=
  ⟨rfl, rfl, rfl, rfl, rfl, rfl, rfl⟩

/-- Claim C6: each of the seven stub operations is a pure, deterministic
function of its declared inputs.  For each operation, the values it stores
into the caller-supplied output locations are the same for any two calls
(in particular for two calls with equal inputs), and every other
caller-visible location keeps exactly its input value, so nothing outside
the declared output locations is modified; the operations are Lean
functions of their arguments alone, so no hidden state is read. -/
theorem stub_ops_pure_deterministic :
    (∀ q o q2 o2, ((MQCONNX q o).Hconn, (MQCONNX q o).CompCode,
        (MQCONNX q o).Reason) =
      ((MQCONNX q2 o2).Hconn, (MQCONNX q2 o2).CompCode,
        (MQCONNX q2 o2).Reason)) ∧
    (∀ q o, (MQCONNX q o).QMgrName = q ∧ (MQCONNX q o).ConnectOpts = o) ∧
    (∀ h h2, MQDISC h = MQDISC h2) ∧
    (∀ h od opt h2 od2 opt2, ((MQOPEN h od opt).Hobj,
        (MQOPEN h od opt).CompCode, (MQOPEN h od opt).Reason) =
      ((MQOPEN h2 od2 opt2).Hobj, (MQOPEN h2 od2 opt2).CompCode,
        (MQOPEN h2 od2 opt2).Reason)) ∧
    (∀ h od opt, (MQOPEN h od opt).ObjDesc = od) ∧
    (∀ h ho opt h2 ho2 opt2, MQCLOSE h ho opt = MQCLOSE h2 ho2 opt2) ∧
    (∀ a b md gmo len buf a2 b2 md2 gmo2 len2 buf2,
      ((MQGET a b md gmo len buf).DataLength,
       (MQGET a b md gmo len buf).CompCode,
       (MQGET a b md gmo len buf).Reason) =
      ((MQGET a2 b2 md2 gmo2 len2 buf2).DataLength,
       (MQGET a2 b2 md2 gmo2 len2 buf2).CompCode,
       (MQGET a2 b2 md2 gmo2 len2 buf2).Reason)) ∧
    (∀ a b md gmo len buf, (MQGET a b md gmo len buf).MsgDesc = md ∧
      (MQGET a b md gmo len buf).GetMsgOpts = gmo ∧
      (MQGET a b md gmo len buf).Buffer = buf) ∧
    (∀ a b md pmo len buf a2 b2 md2 pmo2 len2 buf2,
      ((MQPUT a b md pmo len buf).CompCode,
       (MQPUT a b md pmo len buf).Reason) =
      ((MQPUT a2 b2 md2 pmo2 len2 buf2).CompCode,
       (MQPUT a2 b2 md2 pmo2 len2 buf2).Reason)) ∧
    (∀ a b md pmo len buf, (MQPUT a b md pmo len buf).MsgDesc = md ∧
      (MQPUT a b md pmo len buf).PutMsgOpts = pmo ∧
      (MQPUT a b md pmo len buf).Buffer = buf) ∧
    (∀ a b sc sels ic ia cl ca a2 b2 sc2 sels2 ic2 ia2 cl2 ca2,
      ((MQINQ a b sc sels ic ia cl ca).CompCode,
       (MQINQ a b sc sels ic ia cl ca).Reason) =
      ((MQINQ a2 b2 sc2 sels2 ic2 ia2 cl2 ca2).CompCode,
       (MQINQ a2 b2 sc2 sels2 ic2 ia2 cl2 ca2).Reason)) ∧
    (∀ a b sc sels ic ia cl ca,
      (MQINQ a b sc sels ic ia cl ca).Selectors = sels ∧
      (MQINQ a b sc sels ic ia cl ca).IntAttrs = ia ∧
      (MQINQ a b sc sels ic ia cl ca).CharAttrs = ca) := by
  refine ⟨?_, ?_, ?_, ?_, ?_, ?_, ?_, ?_, ?_, ?_, ?_, ?_⟩ <;> intros <;>
    first
      | rfl
      | exact ⟨rfl, rfl⟩
      | exact ⟨rfl, rfl, rfl⟩

/-- Claim C7: the outputs of a stub MQGET call (data length, completion
code, reason code, buffer contents) are identical for two get-options
records that differ only in their WaitInterval field and in the MQGMO_WAIT
bit of their Options field. -/
theorem mqget_ignores_wait_interval (Hconn : MQHCONN) (Hobj : MQHOBJ)
    (md : MQMD) (gmo gmo2 : MQGMO) (w o2 : MQLONG) (BufferLength : MQLONG)
    (buf : List MQBYTE)
    (hbit : o2 = gmo.Options ∨ o2 = gmo.Options + MQGMO_WAIT ∨
      o2 = gmo.Options - MQGMO_WAIT)
    (hg : gmo2 = { gmo with WaitInterval := w, Options := o2 }) :
    (MQGET Hconn Hobj md gmo BufferLength buf).DataLength =
      (MQGET Hconn Hobj md gmo2 BufferLength buf).DataLength ∧
    (MQGET Hconn Hobj md gmo BufferLength buf).CompCode =
      (MQGET Hconn Hobj md gmo2 BufferLength buf).CompCode ∧
    (MQGET Hconn Hobj md gmo BufferLength buf).Reason =
      (MQGET Hconn Hobj md gmo2 BufferLength buf).Reason ∧
    (MQGET Hconn Hobj md gmo BufferLength buf).Buffer =
      (MQGET Hconn Hobj md gmo2 BufferLength buf).Buffer := by
  subst hg; exact ⟨rfl, rfl, rfl, rfl⟩

/-- Claim C7, instantiated: getting with the all-zero options and with
options that set the MQGMO_WAIT bit and a 5000 ms wait interval yields
identical outputs. -/
theorem mqget_ignores_wait_interval_witness :
    (MQGET 0 0 mqmdZero mqgmoZero 0 []).DataLength =
      (MQGET 0 0 mqmdZero mqgmoWaiting 0 []).DataLength ∧
    (MQGET 0 0 mqmdZero mqgmoZero 0 []).CompCode =
      (MQGET 0 0 mqmdZero mqgmoWaiting 0 []).CompCode ∧
    (MQGET 0 0 mqmdZero mqgmoZero 0 []).Reason =
      (MQGET 0 0 mqmdZero mqgmoWaiting 0 []).Reason ∧
    (MQGET 0 0 mqmdZero mqgmoZero 0 []).Buffer =
      (MQGET 0 0 mqmdZero mqgmoWaiting 0 []).Buffer :=
  mqget_ignores_wait_interval 0 0 mqmdZero mqgmoZero mqgmoWaiting 5000
    (mqgmoZero.Options + MQGMO_WAIT) 0 [] (Or.inr (Or.inl rfl)) rfl

/-- Claim C8: when /opt/mqm/inc/cmqc.h is not resolvable, shim.h binds the
stub declaration set and defines MQ_CLIENT_AVAILABLE as 0; when it is
resolvable, it binds the real declarations and defines
MQ_CLIENT_AVAILABLE as 1; and in every build exactly one of the two
declaration sets is bound. -/
theorem shim_selects_exactly_one_decl_set :
    (selectedDeclSet false = MQDeclSet.stubHeaders ∧
      MQ_CLIENT_AVAILABLE false = 0) ∧
    (selectedDeclSet true = MQDeclSet.realClient ∧
      MQ_CLIENT_AVAILABLE true = 1) ∧
    (∀ p, (selectedDeclSet p = MQDeclSet.stubHeaders ∨
        selectedDeclSet p = MQDeclSet.realClient) ∧
      ¬(selectedDeclSet p = MQDeclSet.stubHeaders ∧
        selectedDeclSet p = MQDeclSet.realClient)) := by
  refine ⟨⟨rfl, rfl⟩, ⟨rfl, rfl⟩, ?_⟩
  intro p
  cases p <;> exact (by decide)

/-- Claim C9: the declared PCF structure-length constants equal the byte
sizes of the corresponding fixed-size records: MQCFH_STRUC_LENGTH (36)
equals the size of MQCFH's nine 4-byte MQLONG fields, MQCFIN_STRUC_LENGTH
(16) equals the size of MQCFIN's four 4-byte MQLONG fields, and
MQCFST_STRUC_LENGTH_FIXED (20) equals the size of MQCFST's five 4-byte
MQLONG fields preceding the trailing string. -/
theorem pcf_struc_lengths_match_layout :
    (MQCFH_STRUC_LENGTH = (mqcfhByteSize : Int) ∧
      mqcfhFieldSizes.length = 9 ∧ mqcfhByteSize = 36) ∧
    (MQCFIN_STRUC_LENGTH = (mqcfinByteSize : Int) ∧
      mqcfinFieldSizes.length = 4 ∧ mqcfinByteSize = 16) ∧
    (MQCFST_STRUC_LENGTH_FIXED = (mqcfstFixedByteSize : Int) ∧
      mqcfstFixedFieldSizes.length = 5 ∧ mqcfstFixedByteSize = 20) := by
  decide

/-- Claim C10: the stub reason-code enumeration is not injective at 2041:
MQRC_OBJECT_CHANGED and MQRC_OBJECT_ALREADY_EXISTS, two distinct names,
are both defined as 2041, so a caller branching on the numeric reason code
cannot distinguish the two conditions. -/
theorem mqrc_object_changed_collides :
    MQRC_OBJECT_CHANGED = MQRC_OBJECT_ALREADY_EXISTS ∧
    MQRC_OBJECT_CHANGED = 2041 ∧ MQRC_OBJECT_ALREADY_EXISTS = 2041 := by
  decide

end MQStubs
